import Mathlib

/-!
Verification of the MCP MSSQL server/client repository
(`backend/mcp_server/server.py`, `backend/mcp_server/client.py`).

The Python code is shallowly embedded: the pure validation logic of
`MCPDatabaseTools.read_data` / `describe_table` and the `call_tool`
dispatcher become Lean functions, with the database driver abstracted as
an oracle argument (`String → Except String …`) so that "the database was
not touched" is expressible as independence from the oracle.  String
primitives (`str.strip`, `str.upper`, `str.startswith`, `in`,
`str.find`, `re.split` on a character class) are modelled over the ASCII
fragment the server manipulates.
-/

namespace MCPServer

/-- The characters Python's `str.strip()` removes and that the regex
character class `[\s\n\t;()]`'s `\s` matches, restricted to ASCII:
space, tab, newline, carriage return, vertical tab, form feed. -/
def isPyWhitespace (c : Char) : Bool :=
  c = ' ' || c = '\t' || c = '\n' || c = '\r' || c = '\x0b' || c = '\x0c'

/-- Python `str.strip()` (ASCII fragment): drop leading and trailing
whitespace. -/
def pythonStrip (s : String) : String :=
  ⟨(s.toList.dropWhile isPyWhitespace).reverse.dropWhile isPyWhitespace |>.reverse⟩

/-- Python `str.upper()` (ASCII fragment): map each character through
`Char.toUpper` (which upper-cases exactly `a`–`z`). -/
def pyUpper (s : String) : String :=
  ⟨s.toList.map Char.toUpper⟩

/-- Python `s.startswith(pre)`. -/
def pyStartswith (s pre : String) : Bool :=
  pre.toList.isPrefixOf s.toList

/-- Python's `sub in s` (substring containment) on char lists. -/
def listContainsSub (sub : List Char) : List Char → Bool
  | [] => sub.isEmpty
  | c :: rest => sub.isPrefixOf (c :: rest) || listContainsSub sub rest

/-- Python's `sub in s` for strings. -/
def pyContains (s sub : String) : Bool :=
  listContainsSub sub.toList s.toList

/-- Python's `s.find(sub)` on char lists, accumulating the index:
index of the first occurrence, `-1` if absent. -/
def pyFindAux (sub : List Char) : List Char → Nat → Int
  | [], i => if sub.isEmpty then (i : Int) else -1
  | c :: rest, i =>
      if sub.isPrefixOf (c :: rest) then (i : Int) else pyFindAux sub rest (i + 1)

/-- Python's `s.find(sub)` for strings. -/
def pyFind (s sub : String) : Int :=
  pyFindAux sub.toList s.toList 0

/-- The delimiter class of `re.split(r'[\s\n\t;()]', …)` in
`read_data`: any whitespace character, `;`, `(`, `)`. -/
def isDelim (c : Char) : Bool :=
  isPyWhitespace c || c = ';' || c = '(' || c = ')'

/-- `re.split` on a single-character class: split at every delimiter
character, keeping empty pieces (exactly as Python does). -/
def splitChars (p : Char → Bool) : List Char → List (List Char)
  | [] => [[]]
  | c :: rest =>
      let r := splitChars p rest
      if p c then [] :: r
      else
        match r with
        | t :: ts => (c :: t) :: ts
        | [] => [[c]]

/-- The token list `re.split(r'[\s\n\t;()]', query_upper)` of
`read_data` (the Python code then puts it in a `set`, which only
affects duplicates, not membership). -/
def pyTokens (s : String) : List String :=
  (splitChars isDelim s.toList).map (fun l => ⟨l⟩)

/-- `dangerous_keywords` from `read_data`, in source order. -/
def dangerous_keywords : List String :=
  ["DROP", "DELETE", "INSERT", "UPDATE", "ALTER", "CREATE", "TRUNCATE"]

/-- Outcome of the pure validation/rewrite prefix of `read_data`
(server.py lines 121–148), before any database access. -/
inductive GateOutcome
  | rejected (message : String)
  | accepted (bounded : String) (effectiveLimit : Int)
  deriving DecidableEq, Repr

/-- The Query Safety Gate: the pure part of
`MCPDatabaseTools.read_data` (server.py lines 121–148).
Validates the SELECT prefix, scans the token set for
`dangerous_keywords`, clamps the limit via `min(max(1, limit), 1000)`,
and inserts ` TOP {limit}` after `SELECT` when neither `TOP` nor
`LIMIT` occur in the upper-cased statement. -/
def read_data_gate (query : String) (limit : Int) : GateOutcome :=
  let query_upper := pyUpper (pythonStrip query)
  if (pyStartswith query_upper "SELECT") = false then
    .rejected "Only SELECT queries are allowed for security reasons."
  else
    match dangerous_keywords.find? (fun kw => (pyTokens query_upper).contains kw) with
    | some kw => .rejected ("Query contains prohibited keyword: " ++ kw)
    | none =>
        let lim : Int := min (max 1 limit) 1000
        let q :=
          if pyContains query_upper "TOP" = false ∧ pyContains query_upper "LIMIT" = false then
            let qs := pythonStrip query
            let select_pos := pyFind query_upper "SELECT"
            if select_pos ≠ -1 then
              (⟨qs.toList.take (select_pos.toNat + 6)⟩ : String) ++ " TOP " ++ toString lim
                ++ (⟨qs.toList.drop (select_pos.toNat + 6)⟩ : String)
            else qs
          else query
        .accepted q lim

example : read_data_gate "SELECT * FROM Accounts" 100
    = .accepted "SELECT TOP 100 * FROM Accounts" 100 := by decide
example : read_data_gate "DELETE FROM Accounts" 100
    = .rejected "Only SELECT queries are allowed for security reasons." := by decide
example : read_data_gate "select drop" 7
    = .rejected "Query contains prohibited keyword: DROP" := by decide
example : read_data_gate "SELECT CREATED_AT FROM T" 5
    = .accepted "SELECT TOP 5 CREATED_AT FROM T" 5 := by decide
example : read_data_gate "SELECT TOP 3 * FROM T" 5
    = .accepted "SELECT TOP 3 * FROM T" 5 := by decide
example : read_data_gate "  SELECT * FROM T  " 0
    = .accepted "SELECT TOP 1 * FROM T" 1 := by decide
example : read_data_gate "SELECT x; DROP TABLE t" 5
    = .rejected "Query contains prohibited keyword: DROP" := by decide

/-! ## The tool handlers with the database driver as an oracle

`pyodbc` is abstracted by oracle arguments of type
`… → Except String …`: `Except.error e` models a
`pyodbc.Error` whose `str(e)` is `e`.  A handler result that is equal
for every oracle is one that never touched the database. -/

/-- One raw row of the INFORMATION_SCHEMA introspection query of
`describe_table` (the attributes read off the pyodbc row). -/
structure RawColumnRow where
  COLUMN_NAME : String
  DATA_TYPE : String
  CHARACTER_MAXIMUM_LENGTH : Option Int
  IS_NULLABLE : String
  COLUMN_DEFAULT : Option String
  IS_PRIMARY_KEY : String
  deriving DecidableEq, Repr

/-- One entry of the `columns` list `describe_table` builds
(server.py lines 73–80). -/
structure ColumnInfo where
  name : String
  type : String
  max_length : Option Int
  nullable : Bool
  default : Option String
  is_primary_key : Bool
  deriving DecidableEq, Repr

/-- Result dict of `describe_table`; `row_count = none` stands for the
string "Unknown (no permission or table doesn't exist)" the code
substitutes when the COUNT(*) query raises. -/
inductive DescribeResult
  | error (message : String)
  | success (schema : String) (table_name : String)
      (columns : List ColumnInfo) (row_count : Option Nat)
  deriving DecidableEq, Repr

/-- `MCPDatabaseTools.describe_table` (server.py lines 32–111).
`introspect schema table` is the INFORMATION_SCHEMA query,
`countRows schema table` the `SELECT COUNT(*)` (whose failure is
swallowed by the bare `except`).  The Python signature defaults
`schema` to "dbo"; `call_tool` always passes a value. -/
def describe_table (introspect : String → String → Except String (List RawColumnRow))
    (countRows : String → String → Except String Nat)
    (table_name : String) (schema : String) : DescribeResult :=
  match introspect schema table_name with
  | .error e => .error ("Database error: " ++ e)
  | .ok rawRows =>
      let columns : List ColumnInfo := rawRows.map (fun r =>
        { name := r.COLUMN_NAME
          type := r.DATA_TYPE
          max_length := r.CHARACTER_MAXIMUM_LENGTH
          nullable := r.IS_NULLABLE == "YES"
          default := r.COLUMN_DEFAULT
          is_primary_key := r.IS_PRIMARY_KEY == "YES" })
      if columns.isEmpty then
        .error ("Table " ++ schema ++ "." ++ table_name
          ++ " not found or you don't have permission to access it.")
      else
        .success schema table_name columns (countRows schema table_name).toOption

/-- Result dict of `read_data`.  Driver cell values are modelled as the
strings they are serialized to (the datetime→ISO-8601 conversion of
lines 160–168 happens at this modelled driver boundary). -/
inductive ReadResult
  | error (message : String)
  | success (columns : List String) (row_count : Nat)
      (rows : List (List String)) (message : String)
  deriving DecidableEq, Repr

/-- `MCPDatabaseTools.read_data` (server.py lines 113–185): the Safety
Gate, then — only on acceptance — one `db` call on the bounded query.
A `pyodbc.Error` from the driver is wrapped (line 181). -/
def read_data (db : String → Except String (List String × List (List String)))
    (query : String) (limit : Int) : ReadResult :=
  match read_data_gate query limit with
  | .rejected msg => .error msg
  | .accepted bounded _ =>
      match db bounded with
      | .error e =>
          .error ("Query execution failed: " ++ e
            ++ ". You may not have permission to access this data.")
      | .ok (columns, rows) =>
          .success columns rows.length rows
            ("Retrieved " ++ toString rows.length ++ " rows")

/-! ## The `call_tool` dispatcher (server.py lines 236–276) -/

/-- The argument mapping of a `tools/call` request, restricted to the
keys the handler reads via `arguments.get`; `none` = key absent. -/
structure Arguments where
  table_name : Option String
  schema : Option String
  query : Option String
  limit : Option Int
  deriving DecidableEq, Repr

/-- Python truthiness of a string argument fetched with
`arguments.get(key)`: `None` and `""` are both falsy (`if not x:`). -/
def truthyStr : Option String → Bool
  | none => false
  | some s => !s.toList.isEmpty

/-- What `call_tool` serializes into the single `TextContent` item:
either a handler's result dict or one of the dispatcher's own
`{status: "error"}` dicts.  The function is total: the Python
`try/except` around the dispatch can never be reached by these pure
handlers, so no invocation crashes the loop or becomes a
protocol-level error. -/
inductive CallToolResult
  | describeResult (r : DescribeResult)
  | readResult (r : ReadResult)
  | errorResult (message : String)
  deriving DecidableEq, Repr

/-- The `call_tool` handler (server.py lines 236–276), with the three
driver oracles threaded through to the tools. -/
def call_tool (introspect : String → String → Except String (List RawColumnRow))
    (countRows : String → String → Except String Nat)
    (db : String → Except String (List String × List (List String)))
    (name : String) (args : Arguments) : CallToolResult :=
  if name = "describe_table" then
    let table_name := args.table_name
    let schema := args.schema.getD "dbo"
    if truthyStr table_name = false then
      .errorResult "table_name is required"
    else
      .describeResult (describe_table introspect countRows (table_name.getD "") schema)
  else if name = "read_data" then
    let query := args.query
    let lim := args.limit.getD 100
    if truthyStr query = false then
      .errorResult "query is required"
    else
      .readResult (read_data db (query.getD "") lim)
  else
    .errorResult ("Unknown tool: " ++ name)

/-! ## The client's request-id generator (client.py lines 14–72) -/

/-- The part of `MCPClient.__init__` state the protocol claims need:
`self.request_id = 0`. -/
structure MCPClientState where
  request_id : Int
  deriving DecidableEq, Repr

/-- A fresh client: `self.request_id = 0`. -/
def MCPClientState.init : MCPClientState := ⟨0⟩

/-- The JSON-RPC request envelope `_send_request` builds (the `params`
value is irrelevant to the claims and omitted). -/
structure Request where
  jsonrpc : String
  id : Int
  method : String
  deriving DecidableEq, Repr

/-- `MCPClient._send_request` (client.py lines 58–72):
`self.request_id += 1`, then the new value is the request's `id`. -/
def sendRequest (s : MCPClientState) (method : String) : MCPClientState × Request :=
  let rid := s.request_id + 1
  (⟨rid⟩, ⟨"2.0", rid, method⟩)

/-- The ids carried by the next `n` requests a client in state `s`
sends (the method name does not influence the id). -/
def requestIdsFrom (s : MCPClientState) : Nat → List Int
  | 0 => []
  | n + 1 =>
      let p := sendRequest s "m"
      p.2.id :: requestIdsFrom p.1 n

example : requestIdsFrom MCPClientState.init 4 = [1, 2, 3, 4] := by decide

/-! ## Theorems -/

/-- C5: `read_data` rejects with the `NotAReadStatement` outcome (the
message "Only SELECT queries are allowed for security reasons.") if and
only if the trimmed, upper-cased statement does not start with the read
keyword `SELECT` — the prefix check of server.py line 123 (per the
spec, "a prefix check, not full parsing", which operationalizes "first
keyword"). -/
theorem read_data_gate_rejects_not_select_iff (q : String) (l : Int) :
    read_data_gate q l
        = .rejected "Only SELECT queries are allowed for security reasons."
      ↔ pyStartswith (pyUpper (pythonStrip q)) "SELECT" = false := by
  unfold read_data_gate
  cases hb : pyStartswith (pyUpper (pythonStrip q)) "SELECT" with
  | false => simp [hb]
  | true =>
      simp only [hb]
      cases hf : dangerous_keywords.find?
          (fun kw => (pyTokens (pyUpper (pythonStrip q))).contains kw) with
      | none => simp
      | some kw =>
          have hmem : kw ∈ dangerous_keywords := List.mem_of_find?_eq_some hf
          simp only [dangerous_keywords, List.mem_cons, List.not_mem_nil, or_false] at hmem
          simp only [hf, Bool.true_eq_false, iff_false]
          intro h
          rcases hmem with rfl | rfl | rfl | rfl | rfl | rfl | rfl <;>
            exact absurd h (by decide)

/-- Witness for C5 at a concrete rejected input. -/
theorem read_data_gate_rejects_not_select_iff_witness :
    read_data_gate "UPDATE T SET x = 1" 10
        = .rejected "Only SELECT queries are allowed for security reasons." :=
  (read_data_gate_rejects_not_select_iff "UPDATE T SET x = 1" 10).mpr (by decide)

/-- C1: for a statement that passes the SELECT-prefix check, if some
denylisted keyword occurs as a whole token of the upper-cased statement
(split on whitespace, `;`, `(`, `)`), the Gate rejects with the
prohibited-keyword message naming such an occurring keyword; if no
denylisted keyword occurs as a whole token (e.g. it occurs only inside a
longer identifier such as `CREATED_AT`), the Gate does not reject and
accepts the statement. -/
theorem read_data_gate_denylist_whole_token (q : String) (l : Int)
    (hsel : pyStartswith (pyUpper (pythonStrip q)) "SELECT" = true) :
    ((∃ kw ∈ dangerous_keywords,
        (pyTokens (pyUpper (pythonStrip q))).contains kw = true) →
      ∃ kw ∈ dangerous_keywords,
        (pyTokens (pyUpper (pythonStrip q))).contains kw = true ∧
          read_data_gate q l = .rejected ("Query contains prohibited keyword: " ++ kw))
    ∧ ((∀ kw ∈ dangerous_keywords,
        (pyTokens (pyUpper (pythonStrip q))).contains kw = false) →
      ∃ b e, read_data_gate q l = .accepted b e) := by
  unfold read_data_gate
  simp only [hsel]
  cases hf : dangerous_keywords.find?
      (fun kw => (pyTokens (pyUpper (pythonStrip q))).contains kw) with
  | none =>
      simp only [Bool.true_eq_false, if_false]
      refine ⟨fun h => ?_, fun _ => ⟨_, _, rfl⟩⟩
      obtain ⟨kw, hmem, hcont⟩ := h
      exact absurd hcont (by simpa using List.find?_eq_none.mp hf kw hmem)
  | some kw =>
      refine ⟨fun _ => ⟨kw, List.mem_of_find?_eq_some hf, ?_, by simp⟩, fun hall => ?_⟩
      · simpa using List.find?_some hf
      · have h1 : (pyTokens (pyUpper (pythonStrip q))).contains kw = false :=
          hall kw (List.mem_of_find?_eq_some hf)
        have h2 := List.find?_some hf
        rw [h1] at h2
        exact absurd h2 Bool.false_ne_true

/-- Witness for C1: `SELECT CREATED_AT FROM T; DROP TABLE T` has `DROP`
as a whole token and is rejected naming `DROP`, while
`SELECT CREATED_AT FROM T` has `CREATE` only inside the identifier
`CREATED_AT` and is accepted. -/
theorem read_data_gate_denylist_whole_token_witness :
    (read_data_gate "SELECT CREATED_AT FROM T; DROP TABLE T" 5
        = .rejected ("Query contains prohibited keyword: " ++ "DROP"))
    ∧ read_data_gate "SELECT CREATED_AT FROM T" 5
        = .accepted "SELECT TOP 5 CREATED_AT FROM T" 5 := by
  constructor
  · obtain ⟨kw, hmem, hcont, hrej⟩ :=
      (read_data_gate_denylist_whole_token "SELECT CREATED_AT FROM T; DROP TABLE T" 5
        (by decide)).1 ⟨"DROP", by decide, by decide⟩
    have : kw = "DROP" := by
      revert hcont
      simp only [dangerous_keywords, List.mem_cons, List.not_mem_nil, or_false] at hmem
      rcases hmem with rfl | rfl | rfl | rfl | rfl | rfl | rfl <;> decide
    rw [this] at hrej
    exact hrej
  · obtain ⟨b, e, hacc⟩ :=
      (read_data_gate_denylist_whole_token "SELECT CREATED_AT FROM T" 5 (by decide)).2
        (by decide)
    have : read_data_gate "SELECT CREATED_AT FROM T" 5
        = .accepted "SELECT TOP 5 CREATED_AT FROM T" 5 := by decide
    exact this

/-- The clamp of server.py line 141: `min(max(1, limit), 1000)`. -/
def clampLimit (x : Int) : Int := min (max 1 x) 1000

/-- Any accepted statement carries the clamped limit as its effective
limit (shared helper). -/
theorem read_data_gate_accepted_limit {q : String} {L : Int} {b : String} {e : Int}
    (h : read_data_gate q L = .accepted b e) : e = clampLimit L := by
  unfold read_data_gate at h
  cases hb : pyStartswith (pyUpper (pythonStrip q)) "SELECT" with
  | false => simp only [hb] at h; simp at h
  | true =>
      simp only [hb] at h
      cases hf : dangerous_keywords.find?
          (fun kw => (pyTokens (pyUpper (pythonStrip q))).contains kw) with
      | some kw => simp only [hf] at h; simp at h
      | none =>
          simp only [hf, Bool.true_eq_false, if_false] at h
          exact (GateOutcome.accepted.inj h).2.symm

/-- A missing `limit` key defaults to 100 in `call_tool`
(line 254: `arguments.get("limit", 100)`) — shared helper. -/
theorem call_tool_limit_missing_default
    (introspect : String → String → Except String (List RawColumnRow))
    (countRows : String → String → Except String Nat)
    (db : String → Except String (List String × List (List String)))
    (name : String) (args : Arguments) :
    call_tool introspect countRows db name { args with limit := none }
      = call_tool introspect countRows db name { args with limit := some 100 } := by
  rcases args with ⟨tn, sch, qu, li⟩
  rfl

/-- C7: the effective row limit of `read_data` is `clamp(L, 1, 1000)`
for a present requested limit `L`, a missing limit defaults to 100
before clamping, and `clamp(0)=1`, `clamp(5000)=1000`, `clamp(-3)=1`. -/
theorem read_data_effective_limit_clamp :
    (∀ q L b e, read_data_gate q L = .accepted b e → e = clampLimit L)
    ∧ (∀ (introspect : String → String → Except String (List RawColumnRow))
        (countRows : String → String → Except String Nat)
        (db : String → Except String (List String × List (List String)))
        (name : String) (args : Arguments),
        call_tool introspect countRows db name { args with limit := none }
          = call_tool introspect countRows db name { args with limit := some 100 })
    ∧ clampLimit 0 = 1 ∧ clampLimit 5000 = 1000 ∧ clampLimit (-3) = 1 :=
  ⟨fun _ _ _ _ h => read_data_gate_accepted_limit h,
   call_tool_limit_missing_default, by decide, by decide, by decide⟩

/-- Witness for C7: the accepted query `SELECT 1` with requested limit
5000 runs with effective limit 1000. -/
theorem read_data_effective_limit_clamp_witness :
    (1000 : Int) = clampLimit 5000 :=
  read_data_effective_limit_clamp.1 "SELECT 1" 5000 "SELECT TOP 1000 1" 1000 (by decide)

/-- C6 counterexample: a requested limit of 0 (or -3) yields effective
limit 1, not the claimed default of 100 — the code only defaults when
the key is missing, and clamps non-positive values up to 1. -/
theorem read_data_nonpositive_limit_cex :
    read_data_gate "SELECT 1" 0 = .accepted "SELECT TOP 1 1" 1
    ∧ read_data_gate "SELECT 1" (-3) = .accepted "SELECT TOP 1 1" 1
    ∧ (1 : Int) ≠ 100 := by decide

/-- C6 amended: a missing limit defaults to 100 before clamping, but a
non-positive requested limit is not replaced by the default — it is
clamped into `[1, 1000]`, so requested limits 0 and -3 both yield
effective limit 1. -/
theorem read_data_nonpositive_limit_clamps_to_one :
    (∀ (introspect : String → String → Except String (List RawColumnRow))
        (countRows : String → String → Except String Nat)
        (db : String → Except String (List String × List (List String)))
        (name : String) (args : Arguments),
        call_tool introspect countRows db name { args with limit := none }
          = call_tool introspect countRows db name { args with limit := some 100 })
    ∧ (∀ q L b e, L ≤ 0 → read_data_gate q L = .accepted b e → e = 1) := by
  refine ⟨call_tool_limit_missing_default, fun q L b e hL h => ?_⟩
  have hc := read_data_gate_accepted_limit h
  have h1 : max 1 L = 1 := max_eq_left (by omega)
  rw [hc]
  unfold clampLimit
  rw [h1]
  decide

/-- Witness for C6 (amended) at requested limit -3. -/
theorem read_data_nonpositive_limit_clamps_to_one_witness :
    (1 : Int) = 1 :=
  read_data_nonpositive_limit_clamps_to_one.2 "SELECT 1" (-3) "SELECT TOP 1 1" 1
    (by decide) (by decide)

/-- The Gate rejects `DELETE FROM Accounts` at the SELECT-prefix check,
whatever the limit (shared helper). -/
theorem read_data_gate_delete_accounts (l : Int) :
    read_data_gate "DELETE FROM Accounts" l
      = .rejected "Only SELECT queries are allowed for security reasons." := rfl

/-- C4 counterexample: `read_data("DELETE FROM Accounts")` is rejected
with the not-a-read-statement message, which is not a
prohibited-keyword message (it does not even start with the
prohibited-keyword prefix). -/
theorem read_data_delete_accounts_cex :
    read_data (fun _ => .ok ([], [])) "DELETE FROM Accounts" 100
      = .error "Only SELECT queries are allowed for security reasons."
    ∧ pyStartswith "Only SELECT queries are allowed for security reasons."
        "Query contains prohibited keyword: " = false := by decide

/-- C4 amended: `read_data("DELETE FROM Accounts")` with any limit
returns the error ToolResult carrying the `NotAReadStatement` message
"Only SELECT queries are allowed for security reasons." (the statement
fails the SELECT-prefix check before the denylist scan), and no
data-access call occurs: the result is independent of the driver
oracle. -/
theorem read_data_delete_accounts_rejected
    (db db' : String → Except String (List String × List (List String)))
    (l l' : Int) :
    read_data db "DELETE FROM Accounts" l
      = .error "Only SELECT queries are allowed for security reasons."
    ∧ read_data db "DELETE FROM Accounts" l = read_data db' "DELETE FROM Accounts" l' := by
  constructor
  · unfold read_data; rw [read_data_gate_delete_accounts l]
  · unfold read_data; rw [read_data_gate_delete_accounts l, read_data_gate_delete_accounts l']

/-- C8: a `tools/call` whose tool name is neither `describe_table` nor
`read_data` yields the application-level error result naming the
unknown tool (server.py lines 263–267).  `call_tool` is a total
function into `CallToolResult`, so the dispatch neither crashes nor
produces a protocol-level error. -/
theorem call_tool_unknown_tool_error
    (introspect : String → String → Except String (List RawColumnRow))
    (countRows : String → String → Except String Nat)
    (db : String → Except String (List String × List (List String)))
    (name : String) (args : Arguments)
    (h1 : name ≠ "describe_table") (h2 : name ≠ "read_data") :
    call_tool introspect countRows db name args
      = .errorResult ("Unknown tool: " ++ name) := by
  unfold call_tool
  rw [if_neg h1, if_neg h2]

/-- Witness for C8 at the concrete unknown tool name `get_schema`. -/
theorem call_tool_unknown_tool_error_witness :
    call_tool (fun _ _ => .ok []) (fun _ _ => .ok 0) (fun _ => .ok ([], []))
      "get_schema" ⟨none, none, none, none⟩
      = .errorResult ("Unknown tool: " ++ "get_schema") :=
  call_tool_unknown_tool_error (fun _ _ => .ok []) (fun _ _ => .ok 0)
    (fun _ => .ok ([], [])) "get_schema" ⟨none, none, none, none⟩
    (by decide) (by decide)

/-- C10: an empty-string value for a required argument is
indistinguishable from a missing one — `if not table_name:` /
`if not query:` treat `""` and an absent key alike — so `call_tool`
returns the same `…is required` error result in both cases, and the
underlying tool is never invoked (the result is independent of all
driver oracles). -/
theorem call_tool_empty_required_arg
    (introspect introspect' : String → String → Except String (List RawColumnRow))
    (countRows countRows' : String → String → Except String Nat)
    (db db' : String → Except String (List String × List (List String)))
    (args : Arguments) :
    (call_tool introspect countRows db "describe_table" { args with table_name := some "" }
        = .errorResult "table_name is required"
      ∧ call_tool introspect countRows db "describe_table" { args with table_name := some "" }
        = call_tool introspect' countRows' db' "describe_table" { args with table_name := none })
    ∧ (call_tool introspect countRows db "read_data" { args with query := some "" }
        = .errorResult "query is required"
      ∧ call_tool introspect countRows db "read_data" { args with query := some "" }
        = call_tool introspect' countRows' db' "read_data" { args with query := none }) := by
  rcases args with ⟨tn, sch, qu, li⟩
  exact ⟨⟨rfl, rfl⟩, ⟨rfl, rfl⟩⟩

/-- `inner` occurs verbatim (as a contiguous substring) in `outer`. -/
def exposesVerbatim (inner outer : String) : Prop :=
  ∃ pre post, outer = pre ++ inner ++ post

/-- C3 counterexample: when the driver fails with message `E_SECRET`,
the ToolResult message returned by `read_data` contains that
lower-level message verbatim — it is not reduced to a generic
"query failed" classification. -/
theorem read_data_db_error_verbatim_cex :
    read_data (fun _ => .error "E_SECRET") "SELECT 1" 100
      = .error "Query execution failed: E_SECRET. You may not have permission to access this data."
    ∧ exposesVerbatim "E_SECRET"
        "Query execution failed: E_SECRET. You may not have permission to access this data."
    ∧ "Query execution failed: E_SECRET. You may not have permission to access this data."
      ≠ "query failed" :=
  ⟨by decide,
   ⟨"Query execution failed: ", ". You may not have permission to access this data.",
    by decide⟩,
   by decide⟩

/-- C3 amended: data-access errors never escape as exceptions — they
are caught and re-wrapped into an error ToolResult with a fixed
classification wrapper — but the lower-level driver message is embedded
verbatim inside that wrapper: `read_data` produces
"Query execution failed: <e>. You may not have permission to access
this data." and `describe_table` produces "Database error: <e>". -/
theorem data_access_errors_rewrapped
    (db : String → Except String (List String × List (List String)))
    (introspect : String → String → Except String (List RawColumnRow))
    (countRows : String → String → Except String Nat)
    (q : String) (l : Int) (b : String) (lim : Int) (e : String)
    (tn sch e2 : String)
    (hacc : read_data_gate q l = .accepted b lim) (hdb : db b = .error e)
    (hin : introspect sch tn = .error e2) :
    (read_data db q l
      = .error ("Query execution failed: " ++ e
          ++ ". You may not have permission to access this data.")
      ∧ exposesVerbatim e ("Query execution failed: " ++ e
          ++ ". You may not have permission to access this data."))
    ∧ (describe_table introspect countRows tn sch = .error ("Database error: " ++ e2)
      ∧ exposesVerbatim e2 ("Database error: " ++ e2)) := by
  refine ⟨⟨?_, ⟨"Query execution failed: ",
      ". You may not have permission to access this data.", rfl⟩⟩,
    ?_, ⟨"Database error: ", "", ?_⟩⟩
  · simp only [read_data, hacc, hdb]
  · simp only [describe_table, hin]
  · rw [String.append_empty]

/-- Witness for C3 (amended) with concrete failing drivers. -/
theorem data_access_errors_rewrapped_witness :
    (read_data (fun _ => .error "boom") "SELECT 1" 100
      = .error ("Query execution failed: " ++ "boom"
          ++ ". You may not have permission to access this data.")
      ∧ exposesVerbatim "boom" ("Query execution failed: " ++ "boom"
          ++ ". You may not have permission to access this data."))
    ∧ (describe_table (fun _ _ => .error "denied") (fun _ _ => .ok 0) "Accounts" "dbo"
        = .error ("Database error: " ++ "denied")
      ∧ exposesVerbatim "denied" ("Database error: " ++ "denied")) :=
  data_access_errors_rewrapped (fun _ => .error "boom") (fun _ _ => .error "denied")
    (fun _ _ => .ok 0) "SELECT 1" 100 "SELECT TOP 100 1" 100 "boom"
    "Accounts" "dbo" "denied" (by decide) rfl rfl

/-- The ids generated from a client whose counter is at `m` are
`m+1, m+2, …` (shared helper). -/
theorem requestIdsFrom_eq (m : Int) (n : Nat) :
    requestIdsFrom ⟨m⟩ n = (List.range n).map (fun k : Nat => m + (k : Int) + 1) := by
  induction n generalizing m with
  | zero => rfl
  | succ n ih =>
      rw [List.range_succ_eq_map]
      simp only [requestIdsFrom, sendRequest, List.map_cons, List.map_map]
      refine congrArg₂ List.cons (by push_cast; ring) ?_
      rw [ih (m + 1)]
      refine List.map_congr_left fun k _ => ?_
      simp only [Function.comp_apply]
      push_cast
      ring

/-- C9: the ids of the requests a fresh Session sends are exactly
`1, 2, 3, …` — generated by the client itself
(`self.request_id += 1`), strictly increasing, positive, and unique
over the lifetime of the Session. -/
theorem session_request_ids_strictly_increasing (n : Nat) :
    requestIdsFrom MCPClientState.init n
        = (List.range n).map (fun k : Nat => (k : Int) + 1)
    ∧ List.Pairwise (· < ·) (requestIdsFrom MCPClientState.init n)
    ∧ (∀ i ∈ requestIdsFrom MCPClientState.init n, 0 < i)
    ∧ (requestIdsFrom MCPClientState.init n).Nodup := by
  have h0 : requestIdsFrom MCPClientState.init n
      = (List.range n).map (fun k : Nat => (k : Int) + 1) := by
    have h := requestIdsFrom_eq 0 n
    simpa using h
  have hpw : List.Pairwise (· < ·) (requestIdsFrom MCPClientState.init n) := by
    rw [h0, List.pairwise_map]
    exact (List.pairwise_lt_range n).imp (fun h => by omega)
  refine ⟨h0, hpw, fun i hi => ?_, hpw.imp ne_of_lt⟩
  rw [h0] at hi
  obtain ⟨k, _, rfl⟩ := List.mem_map.mp hi
  omega

/-- `output` is `input` with `clause` spliced in at one position and
otherwise byte-identical. -/
def insertedOnce (input clause output : String) : Prop :=
  ∃ pre post, input = pre ++ post ∧ output = pre ++ clause ++ post

/-- C2 counterexample: for the accepted statement `SELECT * FROM T `
(trailing space, no limiting keyword) with limit 5, the Gate's output
`SELECT TOP 5 * FROM T` is not the input with one ` TOP 5` clause
inserted — the code re-trims the statement before splicing, so the
input's trailing space is lost and no single insertion point exists
(the lengths cannot match: 16 + 6 ≠ 21). -/
theorem read_data_rewrite_trims_input_cex :
    read_data_gate "SELECT * FROM T " 5 = .accepted "SELECT TOP 5 * FROM T" 5
    ∧ ¬ insertedOnce "SELECT * FROM T " " TOP 5" "SELECT TOP 5 * FROM T" := by
  refine ⟨by decide, ?_⟩
  rintro ⟨pre, post, h1, h2⟩
  have e1 : ("SELECT * FROM T " : String).length = 16 := rfl
  have e2 : ("SELECT TOP 5 * FROM T" : String).length = 21 := rfl
  have e3 : (" TOP 5" : String).length = 6 := rfl
  have l1 := congrArg String.length h1
  have l2 := congrArg String.length h2
  rw [String.length_append] at l1
  rw [String.length_append, String.length_append] at l2
  omega

/-- If `pre` is a prefix of `s`, Python `s.find(pre)` is 0 (helper). -/
theorem pyFindAux_eq_zero {pre s : List Char} (h : pre.isPrefixOf s = true) :
    pyFindAux pre s 0 = 0 := by
  cases s with
  | nil =>
      cases pre with
      | nil => rfl
      | cons c cs => simp [List.isPrefixOf] at h
  | cons c rest =>
      unfold pyFindAux
      simp [h]

/-- `s.find(pre) == 0` when `s.startswith(pre)` (helper). -/
theorem pyFind_eq_zero {s pre : String} (h : pyStartswith s pre = true) :
    pyFind s pre = 0 :=
  pyFindAux_eq_zero h

/-- C2 amended: for every accepted statement whose upper-cased text
contains neither limiting keyword (`TOP`/`LIMIT`), the Gate's output is
the *whitespace-trimmed* input with exactly one ` TOP <effective
limit>` clause inserted immediately after the 6-character read keyword,
and is otherwise byte-identical to that trimmed input (not to the raw
input, whose outer whitespace is discarded). -/
theorem read_data_gate_inserts_top_after_select
    (q : String) (L : Int) (b : String) (e : Int)
    (h : read_data_gate q L = .accepted b e)
    (hTop : pyContains (pyUpper (pythonStrip q)) "TOP" = false)
    (hLim : pyContains (pyUpper (pythonStrip q)) "LIMIT" = false) :
    ∃ pre post : String,
      pythonStrip q = pre ++ post
      ∧ pyUpper pre = "SELECT"
      ∧ b = pre ++ " TOP " ++ toString e ++ post := by
  cases hb : pyStartswith (pyUpper (pythonStrip q)) "SELECT" with
  | false =>
      unfold read_data_gate at h
      simp only [hb] at h
      simp at h
  | true =>
      unfold read_data_gate at h
      simp only [hb, Bool.true_eq_false, if_false] at h
      cases hf : dangerous_keywords.find?
          (fun kw => (pyTokens (pyUpper (pythonStrip q))).contains kw) with
      | some kw => rw [hf] at h; simp at h
      | none =>
          rw [hf] at h
          simp only [] at h
          obtain ⟨hbq, he⟩ := GateOutcome.accepted.inj h
          rw [if_pos ⟨hTop, hLim⟩, pyFind_eq_zero hb] at hbq
          rw [if_pos (by decide : (0 : Int) ≠ -1)] at hbq
          have h6 : (0 : Int).toNat + 6 = 6 := rfl
          rw [h6] at hbq
          refine ⟨⟨(pythonStrip q).toList.take 6⟩, ⟨(pythonStrip q).toList.drop 6⟩,
            ?_, ?_, ?_⟩
          · show pythonStrip q
              = (⟨(pythonStrip q).toList.take 6 ++ (pythonStrip q).toList.drop 6⟩ : String)
            rw [List.take_append_drop]
            rfl
          · obtain ⟨t, ht⟩ := List.isPrefixOf_iff_prefix.mp hb
            show (⟨((pythonStrip q).toList.take 6).map Char.toUpper⟩ : String) = "SELECT"
            rw [List.map_take]
            have htake : ((pythonStrip q).toList.map Char.toUpper).take 6
                = "SELECT".toList := by
              have hup : (pyUpper (pythonStrip q)).toList
                  = (pythonStrip q).toList.map Char.toUpper := rfl
              rw [hup] at ht
              rw [← ht]
              exact List.take_left' rfl
            rw [htake]
            rfl
          · rw [← he]
            exact hbq.symm

/-- Witness for C2 (amended) at the counterexample's input. -/
theorem read_data_gate_inserts_top_after_select_witness :
    ∃ pre post : String,
      pythonStrip "SELECT * FROM T " = pre ++ post
      ∧ pyUpper pre = "SELECT"
      ∧ "SELECT TOP 5 * FROM T" = pre ++ " TOP " ++ toString (5 : Int) ++ post :=
  read_data_gate_inserts_top_after_select "SELECT * FROM T " 5 "SELECT TOP 5 * FROM T" 5
    (by decide) (by decide) (by decide)

end MCPServer
